import Mathlib

/-!
Shallow embedding of the `langgraph-support-triage` application
(`src/app.py`, `src/run_cli.py`) and of the execution-engine contract its
spec describes, together with theorems settling the frozen claims.

Python strings are embedded as `String`, the `GraphState` TypedDict as a
record with `Option` fields for the nullable entries, and Python `float`
amounts as exact decimal values (`DecNum` below): the amounts handled by
the refund path are short decimals.  Functions that
draw on ambient process state (the knowledge base loaded from `kb.json`,
`uuid`-generated ticket identifiers) are parameterised by an explicit
environment.
-/

/-- A chat message, as in the `Message` TypedDict of `app.py`
(`role` is one of "user" / "system" / "assistant"). -/
structure Message where
  role : String
  content : String
deriving Repr, DecidableEq

/-- The shared graph state, as in the `GraphState` TypedDict of `app.py`. -/
structure GraphState where
  messages : List Message
  intent : Option String
  risk : Option String
  action_result : Option String
  approval : Option Bool
deriving Repr, DecidableEq

/-- Whether the first character list is a prefix of the second. -/
def listStartsWith : List Char → List Char → Bool
  | [], _ => true
  | _ :: _, [] => false
  | p :: ps, c :: cs => p = c && listStartsWith ps cs

/-- Whether the first character list occurs contiguously in the second. -/
def containsSeq (pat : List Char) : List Char → Bool
  | [] => pat.isEmpty
  | c :: cs => listStartsWith pat (c :: cs) || containsSeq pat cs

/-- Python's `pat in s` substring test, on the underlying character lists. -/
def strContains (s pat : String) : Bool :=
  containsSeq pat.toList s.toList

/-- Python's `s.lower()`: lowercase each character (the keywords compared
against are ASCII, where Python and this agree). -/
def pyLower (s : String) : String :=
  ⟨s.data.map Char.toLower⟩

/-- Split a character list on whitespace runs, dropping empty pieces —
Python's argumentless `str.split()`. `acc` holds the current word,
reversed. -/
def splitWsAux : List Char → List Char → List (List Char)
  | [], acc => if acc.isEmpty then [] else [acc.reverse]
  | c :: cs, acc =>
    if c.isWhitespace then
      if acc.isEmpty then splitWsAux cs []
      else acc.reverse :: splitWsAux cs []
    else splitWsAux cs (c :: acc)

/-- Python's `s.replace("$", " ")`: the pattern is the single ASCII
character `$`, so the substring replacement is exactly a character map. -/
def replaceDollar (s : String) : String :=
  ⟨s.data.map (fun c => if c = '$' then ' ' else c)⟩

/-- Executable realisation of Python's argumentless `str.split()` on the
ASCII whitespace actually exercised here; the full Unicode-whitespace
behaviour stays behind the `FloatOps` interface below. -/
def splitWs (s : String) : List String :=
  (splitWsAux s.data []).map (fun cs => ⟨cs⟩)

/-- `classify_intent` from `app.py`: keyword heuristic returning
`(intent, risk)`; refund keywords are checked first and carry high risk. -/
def classify_intent (message : String) : String × String :=
  let m := pyLower message
  if ["refund", "chargeback", "money back"].any (fun k => strContains m k) then
    ("refund", "high")
  else if ["hours", "policy", "contact"].any (fun k => strContains m k) then
    ("faq", "low")
  else if ["bug", "error", "issue", "broken"].any (fun k => strContains m k) then
    ("issue", "low")
  else
    ("unknown", "low")

/-- `_last_user` from `app.py`: content of the most recent user message,
or the empty string. -/
def lastUser (state : GraphState) : String :=
  match state.messages.reverse.find? (fun m => m.role == "user") with
  | some m => m.content
  | none => ""

/-- `node_classify` from `app.py`: writes `intent` and `risk` from the
classifier, leaves every other field alone. -/
def node_classify (state : GraphState) : GraphState :=
  let p := classify_intent (lastUser state)
  { state with intent := some p.1, risk := some p.2 }

/-- The Python runtime primitives the refund-amount code of `app.py`
leans on, over an abstract carrier `F` of Python float values.  IEEE-754
binary64 parsing and formatting (`float(tok)` with inf/nan, underscore
grouping and Unicode digits; `f"{x:.2f}"` rounding of the nearest binary
double) and Unicode-whitespace `str.split()` are not shallowly
embeddable, so the refund pipeline is stated for every semantics of these
primitives — in particular the runtime's own. -/
structure FloatOps (F : Type) where
  pyFloat? : String → Option F
  zero : F
  nonpos : F → Bool
  twenty : F
  format2 : F → String
  pySplitWs : String → List String

/-- Environment for the ambient process state the handlers read:
the knowledge base rows loaded from `kb.json` (pairs `(q, a)`), the
ticket identifier the next `tool_create_ticket` call would mint
(`"T-" ++` eight hex digits of a fresh uuid — nondeterministic, so
supplied as a parameter), and the float-primitive semantics. -/
structure Env (F : Type) where
  kb : List (String × String)
  ticketId : String
  fl : FloatOps F

/-- `tool_kb_search` from `app.py`. -/
def tool_kb_search (kb : List (String × String)) (query : String) : String :=
  let q := pyLower query
  match kb.find? (fun row => strContains q row.1) with
  | some row => "FAQ: " ++ row.2
  | none => "No FAQ match."

/-- `tool_create_ticket` from `app.py`, with the minted uuid-based
identifier supplied by the environment. -/
def tool_create_ticket {F : Type} (env : Env F) (text : String) : String :=
  "Created ticket " ++ env.ticketId ++ " for: " ++ text

/-- Digits of a token, Python style: value of a list of decimal digits. -/
def natOfDigits (cs : List Char) : Nat :=
  cs.foldl (fun n c => n * 10 + (c.toNat - 48)) 0

/-- Split a character list into its leading run of decimal digits and
the rest. -/
def spanDigits (cs : List Char) : List Char × List Char :=
  (cs.takeWhile Char.isDigit, cs.dropWhile Char.isDigit)

/-- The exact value `num / 10 ^ exp` of a finite decimal literal: the
carrier of the executable `FloatOps` instance below, which realises the
float primitives exactly on the plain ASCII decimal amounts the witnesses
exercise. -/
structure DecNum where
  num : Int
  exp : Nat
deriving Repr, DecidableEq

/-- Negate a decimal value. -/
def DecNum.neg (a : DecNum) : DecNum := ⟨-a.num, a.exp⟩

/-- Scale a decimal value by `10 ^ k`. -/
def DecNum.e10 (a : DecNum) : Int → DecNum
  | Int.ofNat k => ⟨a.num * Int.ofNat (10 ^ k), a.exp⟩
  | Int.negSucc k => ⟨a.num, a.exp + (k + 1)⟩

/-- Python's `amount <= 0` on a decimal value. -/
def DecNum.nonpos (a : DecNum) : Bool := a.num ≤ 0

/-- The mantissa part of a Python float literal: digits with an optional
decimal point (`"42"`, `"42."`, `".5"`, `"4.2"`); returns its exact value
and the unconsumed characters. -/
def parseMantissa (cs : List Char) : Option (DecNum × List Char) :=
  let p := spanDigits cs
  match p.2 with
  | '.' :: rest2 =>
    let q := spanDigits rest2
    if p.1.isEmpty && q.1.isEmpty then none
    else
      some (⟨Int.ofNat (natOfDigits p.1 * 10 ^ q.1.length + natOfDigits q.1),
             q.1.length⟩, q.2)
  | _ =>
    if p.1.isEmpty then none
    else some (⟨Int.ofNat (natOfDigits p.1), 0⟩, p.2)

/-- Executable realisation of `float(tok)` on plain ASCII decimal
tokens: optional sign, decimal mantissa, optional exponent.  The
spellings it does not cover (`inf`, `nan`, underscore grouping, Unicode
digits) stay behind the `FloatOps` interface. -/
def pyFloatOfToken (tok : String) : Option DecNum :=
  let cs := tok.toList
  let sp : Bool × List Char :=
    match cs with
    | '-' :: rest => (true, rest)
    | '+' :: rest => (false, rest)
    | _ => (false, cs)
  match parseMantissa sp.2 with
  | none => none
  | some mr =>
    let m := if sp.1 then mr.1.neg else mr.1
    match mr.2 with
    | [] => some m
    | e :: rest2 =>
      if e = 'e' || e = 'E' then
        let er : Bool × List Char :=
          match rest2 with
          | '-' :: r => (true, r)
          | '+' :: r => (false, r)
          | _ => (false, rest2)
        let q := spanDigits er.2
        if q.1.isEmpty || !q.2.isEmpty then none
        else
          let k : Int := Int.ofNat (natOfDigits q.1)
          some (m.e10 (if er.1 then -k else k))
      else none

/-- The decimal value scaled by 100 and rounded to the nearest integer,
ties to even: the cents rendered by the executable instance. -/
def DecNum.cents (a : DecNum) : Int :=
  let n := a.num * 100
  let d : Int := Int.ofNat (10 ^ a.exp)
  let q := n.fdiv d
  let r := n - q * d
  if 2 * r < d then q
  else if d < 2 * r then q + 1
  else if q % 2 = 0 then q else q + 1

/-- Executable realisation of `f"{amount:.2f}"` on the exact decimal
value: two decimal places, ties to even — agreeing with Python on the
short decimals exercised here; the binary-double rounding of the runtime
stays behind the `FloatOps` interface. -/
def format2f (a : DecNum) : String :=
  let c := a.cents
  let sign := if c < 0 then "-" else ""
  let m := c.natAbs
  let frac := m % 100
  sign ++ toString (m / 100) ++ "." ++ (if frac < 10 then "0" else "") ++ toString frac

/-- The executable `FloatOps` instance over exact decimals, used to run
the model on concrete inputs. -/
def decOps : FloatOps DecNum :=
  ⟨pyFloatOfToken, ⟨0, 0⟩, DecNum.nonpos, ⟨20, 0⟩, format2f, splitWs⟩

/-- `tool_issue_refund` from `app.py`: `f"Refund issued: ${amount:.2f}"`,
over any semantics of the formatting primitive. -/
def tool_issue_refund {F : Type} (ops : FloatOps F) (amount : F) : String :=
  "Refund issued: $" ++ ops.format2 amount

/-- The amount-parsing loop of `node_handle_refund` in `app.py`: replace
`$` by a space, split on whitespace, take the first token `float` accepts
(starting from `amount = 0.0`), defaulting to the demo amount 20.00 when
the result is not positive. -/
def parse_refund_amount {F : Type} (ops : FloatOps F) (user_msg : String) : F :=
  let toks := ops.pySplitWs (replaceDollar user_msg)
  let amount := (toks.findSome? ops.pyFloat?).getD ops.zero
  if ops.nonpos amount then ops.twenty else amount

/-- `node_handle_refund` from `app.py`: deny when `approval` is falsy,
otherwise issue a refund for the parsed amount. -/
def node_handle_refund {F : Type} (ops : FloatOps F) (state : GraphState) : GraphState :=
  let approved := state.approval.getD false
  if !approved then
    let msg := "Refund request denied by reviewer."
    { state with
        action_result := some msg
        messages := state.messages ++ [⟨"assistant", msg⟩] }
  else
    let res := tool_issue_refund ops (parse_refund_amount ops (lastUser state))
    { state with
        action_result := some res
        messages := state.messages ++ [⟨"assistant", res⟩] }

/-- `node_handle_faq` from `app.py`. -/
def node_handle_faq {F : Type} (env : Env F) (state : GraphState) : GraphState :=
  let ans := tool_kb_search env.kb (lastUser state)
  { state with
      action_result := some ans
      messages := state.messages ++ [⟨"assistant", ans⟩] }

/-- `node_handle_issue` from `app.py`. -/
def node_handle_issue {F : Type} (env : Env F) (state : GraphState) : GraphState :=
  let res := tool_create_ticket env (lastUser state)
  { state with
      action_result := some res
      messages := state.messages ++ [⟨"assistant", res⟩] }

/-- `node_fallback` from `app.py`. -/
def node_fallback {F : Type} (env : Env F) (state : GraphState) : GraphState :=
  let msg := "I couldn\u2019t classify that. I created a ticket to follow up."
  let t := tool_create_ticket env (lastUser state)
  let res := msg ++ " " ++ t
  { state with
      action_result := some res
      messages := state.messages ++ [⟨"assistant", res⟩] }

/-- Result of running one node handler: either the updated state, or a
suspension carrying the interrupt payload (the `message` field of the dict
handed to `interrupt()` in `app.py`). -/
inductive NodeResult where
  | done (s : GraphState)
  | suspended (payload : String)
deriving Repr, DecidableEq

/-- `node_human_gate` from `app.py`: when `approval` is unset, call
`interrupt(...)` — which suspends if no resume value is pending and
otherwise returns that value, to be recorded in `approval`; when
`approval` is already set, return the state untouched. -/
def node_human_gate (state : GraphState) (resume : Option Bool) : NodeResult :=
  match state.approval with
  | some _ => .done state
  | none =>
    match resume with
    | some v => .done { state with approval := some v }
    | none => .suspended "Approval required for refund. Resume with true/false."

/-- `router` from `app.py`: the conditional router attached to the
`classify` node; reads only `intent` and `risk`. -/
def router (state : GraphState) : String :=
  let intent := state.intent
  let risk := state.risk
  if intent = some "faq" then "faq"
  else if intent = some "issue" then "issue"
  else if intent = some "refund" then
    (if risk = some "high" then "human_gate" else "refund")
  else "fallback"

/-- The label-to-node mapping declared in `builder.add_conditional_edges`
in `app.py`. -/
def conditional_label_map : List (String × String) :=
  [("faq", "faq"), ("issue", "issue"), ("human_gate", "human_gate"),
   ("refund", "refund"), ("fallback", "fallback")]

/-- Modelled from the spec: the error taxonomy of §7 for the execution
engine, which lives in the LangGraph library rather than under `src/`.
`FuelExhausted` stands for the spec's bounded node-handler execution
(NodeExecutionError on overrun) and is unreachable on this acyclic
graph. -/
inductive EngineError where
  | InvalidInvocation
  | ThreadBusy
  | NothingToResume
  | UnroutableLabel (label : String)
  | UnknownNode (node : String)
  | FuelExhausted
deriving Repr, DecidableEq

/-- Modelled from the spec: a turn's outcome, `Completed(state)` or
`Paused(payload)` (§4.2, §6). -/
inductive TurnResult where
  | Completed (s : GraphState)
  | Paused (payload : String)
deriving Repr, DecidableEq

/-- Modelled from the spec: a checkpoint (§3) — sequence number, the
persisted state, the next-node pointer, and an optional pause marker
naming the paused node and carrying the interrupt payload.  The thread id
is left implicit: each store below is the history of one thread, and
threads are independent (§3, §5). -/
structure Checkpoint where
  seq : Nat
  state : GraphState
  next_node : String
  pause : Option (String × String)
deriving Repr, DecidableEq

/-- Dispatch a node id to its handler from `app.py`; only `human_gate`
consumes a resume value or suspends.  `none` for an undeclared node id. -/
def runNode {F : Type} (env : Env F) (node : String) (resume : Option Bool)
    (s : GraphState) : Option NodeResult :=
  if node = "classify" then some (.done (node_classify s))
  else if node = "faq" then some (.done (node_handle_faq env s))
  else if node = "issue" then some (.done (node_handle_issue env s))
  else if node = "human_gate" then some (node_human_gate s resume)
  else if node = "refund" then some (.done (node_handle_refund env.fl s))
  else if node = "fallback" then some (.done (node_fallback env s))
  else none

/-- The terminal marker: `END` in `app.py`. -/
def ENDnode : String := "END"

/-- Modelled from the spec: resolve the next node after `node` (§4.2
step 4) — for `classify`, by invoking the conditional `router` and looking
its label up in the declared mapping (`UnroutableLabel` if absent); for
every other node of `app.py`, by the static edge declared with
`builder.add_edge`. -/
def resolve_next (node : String) (s : GraphState) : Except EngineError String :=
  if node = "classify" then
    match conditional_label_map.lookup (router s) with
    | some dst => .ok dst
    | none => .error (.UnroutableLabel (router s))
  else if node = "human_gate" then .ok "refund"
  else if node = "faq" ∨ node = "issue" ∨ node = "refund" ∨ node = "fallback" then
    .ok ENDnode
  else .error (.UnknownNode node)

/-- Modelled from the spec: the step loop of §4.2 steps 4–5.  Runs the
handler of the current node; on suspension, appends a paused checkpoint
whose next-node pointer and pause marker name the current node and returns
`Paused`; otherwise resolves the next node, appends a checkpoint recording
the post-handler state, and either completes (next node terminal) or
advances.  The resume value is consumed by the first node run, as re-entry
targets exactly the paused node (§4.3). -/
def stepLoop {F : Type} (env : Env F) (fuel : Nat) (node : String) (s : GraphState)
    (resume : Option Bool) (seq : Nat) (hist : List Checkpoint) :
    Except EngineError (TurnResult × List Checkpoint) :=
  match fuel with
  | 0 => .error .FuelExhausted
  | fuel + 1 =>
    match runNode env node resume s with
    | none => .error (.UnknownNode node)
    | some (.suspended payload) =>
      .ok (.Paused payload, hist ++ [⟨seq, s, node, some (node, payload)⟩])
    | some (.done s2) =>
      match resolve_next node s2 with
      | .error e => .error e
      | .ok nxt =>
        if nxt = ENDnode then .ok (.Completed s2, hist ++ [⟨seq, s2, nxt, none⟩])
        else stepLoop env fuel nxt s2 none (seq + 1) (hist ++ [⟨seq, s2, nxt, none⟩])

/-- Latest checkpoint of a thread's history. -/
def latestCheckpoint (hist : List Checkpoint) : Option Checkpoint :=
  hist.getLast?

/-- Sequence number the next checkpoint of the thread should carry. -/
def nextSeq (hist : List Checkpoint) : Nat :=
  match latestCheckpoint hist with
  | some cp => cp.seq + 1
  | none => 0

/-- Fuel ample for any path through this six-node acyclic graph. -/
def graphFuel : Nat := 10

/-- Modelled from the spec: `invoke` (§4.2).  Exactly one of the initial
state / resume command must be supplied, else `InvalidInvocation`.  A
fresh state starts at the entry node `classify` unless a non-terminal
checkpoint exists (`ThreadBusy`).  A resume command requires a latest
checkpoint carrying a pause marker (`NothingToResume`) and re-enters the
paused node with the command's value as the suspension's return value. -/
def invoke {F : Type} (env : Env F) (hist : List Checkpoint)
    (initialState : Option GraphState) (resumeCmd : Option Bool) :
    Except EngineError (TurnResult × List Checkpoint) :=
  match initialState, resumeCmd with
  | none, none => .error .InvalidInvocation
  | some _, some _ => .error .InvalidInvocation
  | some s0, none =>
    match latestCheckpoint hist with
    | some cp =>
      if cp.next_node = ENDnode then
        stepLoop env graphFuel "classify" s0 none (nextSeq hist) hist
      else .error .ThreadBusy
    | none => stepLoop env graphFuel "classify" s0 none 0 hist
  | none, some v =>
    match latestCheckpoint hist with
    | none => .error .NothingToResume
    | some cp =>
      match cp.pause with
      | none => .error .NothingToResume
      | some pm => stepLoop env graphFuel pm.1 cp.state (some v) (nextSeq hist) hist

/-- The thread's checkpoint history after an `invoke` call: unchanged when
the call fails (rejected calls change no state, §7). -/
def invokeHist {F : Type} (env : Env F) (hist : List Checkpoint)
    (initialState : Option GraphState) (resumeCmd : Option Bool) :
    List Checkpoint :=
  match invoke env hist initialState resumeCmd with
  | .ok r => r.2
  | .error _ => hist

/-- The `Inbound` request model of `app.py`. -/
structure Inbound where
  thread_id : Option String
  message : String
  approval : Option Bool
deriving Repr, DecidableEq

/-- The JSON object returned by the `/chat` endpoint of `app.py`, with
absent dict keys as `none`. -/
structure ChatResponse where
  thread_id : String
  status : String
  message : Option String
  interrupt : Option String
  intent : Option String
  risk : Option String
  action_result : Option String
  messages : Option (List Message)
deriving Repr, DecidableEq

/-- The fresh `uuid4().hex` thread id minted when the request carries
none; nondeterministic, so supplied as a parameter. -/
def chatThreadId (freshId : String) (inp : Inbound) : String :=
  inp.thread_id.getD freshId

/-- The `chat` handler of `app.py` over the modelled engine: a request
with `approval` set resumes via `Command(resume=bool(approval))`,
otherwise a fresh initial state around the user message is invoked; a
result carrying an interrupt becomes `PAUSED_FOR_APPROVAL`, a completed
one becomes `DONE` with the final state's fields. -/
def chat {F : Type} (env : Env F) (freshId : String) (hist : List Checkpoint)
    (inp : Inbound) : Except EngineError (ChatResponse × List Checkpoint) :=
  let tid := chatThreadId freshId inp
  let call :=
    match inp.approval with
    | some b => invoke env hist none (some b)
    | none =>
      let state_in : GraphState :=
        ⟨[⟨"user", inp.message⟩], none, none, none, none⟩
      invoke env hist (some state_in) none
  match call with
  | .error e => .error e
  | .ok (.Paused payload, hist2) =>
    .ok (⟨tid, "PAUSED_FOR_APPROVAL",
          some "Approval required. POST again with the same thread_id and approval=true/false.",
          some payload, none, none, none, none⟩, hist2)
  | .ok (.Completed s, hist2) =>
    .ok (⟨tid, "DONE", none, none, s.intent, s.risk, s.action_result,
          some s.messages⟩, hist2)

/-- Concrete environment for evaluating the theorems: empty knowledge
base, a fixed minted ticket id, the executable float instance. -/
def wEnv : Env DecNum := ⟨[], "T-00000000", decOps⟩

/-- The demo user message of `run_cli.py`. -/
def wMsg : String := "I want a refund of $42 please."

/-- The initial state the `chat` handler builds around `wMsg`. -/
def wState0 : GraphState := ⟨[⟨"user", wMsg⟩], none, none, none, none⟩

/-- The state recorded when the demo thread pauses at `human_gate`. -/
def wPausedState : GraphState :=
  ⟨[⟨"user", wMsg⟩], some "refund", some "high", none, none⟩

/-- The interrupt payload of `node_human_gate`. -/
def wPayload : String := "Approval required for refund. Resume with true/false."

/-- Checkpoint history of a thread freshly paused at `human_gate`. -/
def wPausedHist : List Checkpoint :=
  [⟨0, wPausedState, "human_gate", none⟩,
   ⟨1, wPausedState, "human_gate", some ("human_gate", wPayload)⟩]

/-- Decidable equality for `Except`, so concrete engine runs can be
checked by evaluation. -/
instance {ε α : Type} [DecidableEq ε] [DecidableEq α] : DecidableEq (Except ε α) := fun x y =>
  match x, y with
  | .ok a, .ok b => if h : a = b then isTrue (by rw [h]) else isFalse (by simp [h])
  | .error a, .error b => if h : a = b then isTrue (by rw [h]) else isFalse (by simp [h])
  | .ok _, .error _ => isFalse (by simp)
  | .error _, .ok _ => isFalse (by simp)

/-- Final state of the demo thread after a reviewer denies the refund. -/
def wDenied : GraphState :=
  ⟨[⟨"user", wMsg⟩, ⟨"assistant", "Refund request denied by reviewer."⟩],
   some "refund", some "high", some "Refund request denied by reviewer.", some false⟩

/-- A thread that completed one denied-refund turn and was then restarted
with the same message: paused at `human_gate` a second time, its history
already holds one pause and one completion record. -/
def wTwoTurnHist : List Checkpoint :=
  invokeHist wEnv (invokeHist wEnv wPausedHist none (some false)) (some wState0) none

/-- C3: the `human_gate` handler calls the suspension primitive only when
the state's `approval` field is unset; whenever `approval` is already set,
it returns without suspending — the pre-suspension prefix is
short-circuited by the already-written field, so the node never suspends
twice for the same decision. -/
theorem c3_gate_suspends_only_when_unset (s : GraphState) (resume : Option Bool) :
    (s.approval ≠ none → node_human_gate s resume = .done s) ∧
    (∀ p, node_human_gate s resume = .suspended p →
      s.approval = none ∧ resume = none) := by
  unfold node_human_gate
  cases s.approval <;> cases resume <;> simp

/-- Witness for C3 at concrete inputs: a state with `approval` already set
passes through untouched, and a suspension exhibits an unset `approval`. -/
theorem c3_gate_suspends_only_when_unset_witness :
    node_human_gate ⟨[], none, none, none, some true⟩ none =
      .done ⟨[], none, none, none, some true⟩ ∧
    ((⟨[], none, none, none, none⟩ : GraphState).approval = none ∧
      (none : Option Bool) = none) :=
  ⟨(c3_gate_suspends_only_when_unset ⟨[], none, none, none, some true⟩ none).1
     (by decide),
   (c3_gate_suspends_only_when_unset ⟨[], none, none, none, none⟩ none).2
     "Approval required for refund. Resume with true/false." (by decide)⟩

/-- C4: for every state, the label the conditional `router` returns is a
key of the declared label-to-node mapping, so resolving it always
succeeds and the `UnroutableLabel` branch is unreachable. -/
theorem c4_router_labels_always_mapped (s : GraphState) :
    (conditional_label_map.lookup (router s)).isSome = true ∧
    resolve_next "classify" s = .ok (router s) := by
  have h : router s = "faq" ∨ router s = "issue" ∨ router s = "human_gate" ∨
      router s = "refund" ∨ router s = "fallback" := by
    simp only [router]
    split_ifs <;> simp
  rcases h with h | h | h | h | h <;>
    simp [resolve_next, conditional_label_map, List.lookup, h]

/-- C5: supplying both an initial state and a resume command, or neither,
fails with `InvalidInvocation` and leaves the thread's checkpoint history
unchanged. -/
theorem c5_invalid_invocation_rejected {F : Type} (env : Env F) (hist : List Checkpoint)
    (s : GraphState) (v : Bool) :
    invoke env hist none none = .error .InvalidInvocation ∧
    invoke env hist (some s) (some v) = .error .InvalidInvocation ∧
    invokeHist env hist none none = hist ∧
    invokeHist env hist (some s) (some v) = hist :=
  ⟨rfl, rfl, rfl, rfl⟩

/-- C6: resuming a thread with no prior checkpoint fails with
`NothingToResume` and appends no checkpoint. -/
theorem c6_resume_without_checkpoint_rejected {F : Type} (env : Env F) (v : Bool) :
    invoke env [] none (some v) = .error .NothingToResume ∧
    invokeHist env [] none (some v) = [] :=
  ⟨rfl, rfl⟩

/-- C8: the `classify` node writes only `intent` and `risk`; `messages`,
`action_result` and `approval` pass through unchanged. -/
theorem c8_classify_writes_only_intent_risk (s : GraphState) :
    (node_classify s).messages = s.messages ∧
    (node_classify s).action_result = s.action_result ∧
    (node_classify s).approval = s.approval :=
  ⟨rfl, rfl, rfl⟩

/-- C9: the classifier assigns risk "high" iff it assigns intent
"refund"; every other intent gets risk "low", and refund keywords take
precedence over the faq and issue keywords. -/
theorem c9_high_risk_iff_refund (msg : String) :
    ((classify_intent msg).2 = "high" ↔ (classify_intent msg).1 = "refund") ∧
    ((classify_intent msg).1 ≠ "refund" → (classify_intent msg).2 = "low") ∧
    ((["refund", "chargeback", "money back"].any
        (fun k => strContains (pyLower msg) k)) = true →
      (classify_intent msg).1 = "refund") := by
  simp only [classify_intent]
  split_ifs <;> simp_all

/-- Witness for C9 at concrete inputs: an faq-keyword message gets risk
"low", and a message containing both refund and faq keywords is
classified "refund". -/
theorem c9_high_risk_iff_refund_witness :
    (classify_intent "what are your hours").2 = "low" ∧
    (classify_intent "refund me, what are your hours").1 = "refund" :=
  ⟨(c9_high_risk_iff_refund "what are your hours").2.1 (by decide),
   (c9_high_risk_iff_refund "refund me, what are your hours").2.2 (by decide)⟩

/-- C10: the router's label depends only on the `intent` and `risk`
fields — two states agreeing on those two fields route identically,
whatever their `messages`, `action_result` and `approval`. -/
theorem c10_router_depends_only_on_intent_risk (s1 s2 : GraphState)
    (h1 : s1.intent = s2.intent) (h2 : s1.risk = s2.risk) :
    router s1 = router s2 := by
  simp only [router, h1, h2]

/-- Witness for C10 at concrete inputs: two states differing in
`messages`, `action_result` and `approval` but agreeing on `intent` and
`risk` route identically. -/
theorem c10_router_depends_only_on_intent_risk_witness :
    router ⟨[], some "refund", some "high", none, none⟩ =
      router ⟨[⟨"user", "x"⟩], some "refund", some "high", some "y", some true⟩ :=
  c10_router_depends_only_on_intent_risk
    ⟨[], some "refund", some "high", none, none⟩
    ⟨[⟨"user", "x"⟩], some "refund", some "high", some "y", some true⟩
    (by decide) (by decide)

/-- C1: invoking a new thread whose user message contains "refund"
(case-insensitively) classifies it as intent "refund" with risk "high",
routes to `human_gate`, and the turn ends paused: the `/chat` endpoint
answers `PAUSED_FOR_APPROVAL` with the approval-request interrupt payload,
and the paused checkpoint's `approval` field is still unset. -/
theorem c1_new_refund_thread_pauses {F : Type} (env : Env F) (freshId msg : String)
    (h : strContains (pyLower msg) "refund" = true) :
    classify_intent msg = ("refund", "high") ∧
    router (node_classify ⟨[⟨"user", msg⟩], none, none, none, none⟩) = "human_gate" ∧
    ∃ pausedState hist2,
      chat env freshId [] ⟨none, msg, none⟩ =
        .ok (⟨freshId, "PAUSED_FOR_APPROVAL",
              some "Approval required. POST again with the same thread_id and approval=true/false.",
              some "Approval required for refund. Resume with true/false.",
              none, none, none, none⟩, hist2) ∧
      latestCheckpoint hist2 =
        some ⟨1, pausedState, "human_gate",
              some ("human_gate", "Approval required for refund. Resume with true/false.")⟩ ∧
      pausedState.approval = none := by
  have hc : classify_intent msg = ("refund", "high") := by
    simp [classify_intent, h]
  refine ⟨hc, ?_,
    ⟨[⟨"user", msg⟩], some "refund", some "high", none, none⟩,
    [⟨0, ⟨[⟨"user", msg⟩], some "refund", some "high", none, none⟩, "human_gate", none⟩,
     ⟨1, ⟨[⟨"user", msg⟩], some "refund", some "high", none, none⟩, "human_gate",
      some ("human_gate", "Approval required for refund. Resume with true/false.")⟩],
    ?_, rfl, rfl⟩
  · simp [node_classify, lastUser, hc, router]
  · simp [chat, chatThreadId, invoke, latestCheckpoint, graphFuel, stepLoop, runNode,
          node_classify, lastUser, hc, resolve_next, router, conditional_label_map,
          List.lookup, node_human_gate, ENDnode, nextSeq]

/-- Witness for C1 at the demo message of `run_cli.py`. -/
theorem c1_new_refund_thread_pauses_witness :
    classify_intent wMsg = ("refund", "high") :=
  (c1_new_refund_thread_pauses wEnv "tid" wMsg (by decide)).1

/-- C2: resuming a thread paused at `human_gate` with resume value `true`
completes the turn; the final state's `action_result` is the
refund-issued string `tool_issue_refund` produces for the parsed amount,
and `approval` is recorded as `true`.  Stated for every semantics of the
Python float primitives (`FloatOps`), hence in particular for the
runtime's own `float` / `:.2f` / `str.split()`. -/
theorem c2_resume_true_issues_refund {F : Type} (env : Env F) (hist : List Checkpoint)
    (cp : Checkpoint) (payload : String)
    (h1 : latestCheckpoint hist = some cp)
    (h2 : cp.pause = some ("human_gate", payload))
    (h3 : cp.state.approval = none) :
    ∃ finalState hist2,
      invoke env hist none (some true) = .ok (.Completed finalState, hist2) ∧
      finalState.approval = some true ∧
      finalState.action_result =
        some (tool_issue_refund env.fl (parse_refund_amount env.fl (lastUser cp.state))) := by
  refine ⟨node_handle_refund env.fl { cp.state with approval := some true },
    hist ++ [⟨nextSeq hist, { cp.state with approval := some true }, "refund", none⟩,
             ⟨nextSeq hist + 1,
              node_handle_refund env.fl { cp.state with approval := some true }, ENDnode, none⟩],
    ?_, ?_, ?_⟩
  · simp [invoke, h1, h2, graphFuel, stepLoop, runNode, node_human_gate, h3,
          resolve_next, ENDnode, nextSeq, List.append_assoc]
  · simp [node_handle_refund]
  · simp [node_handle_refund, lastUser]

/-- Witness for C2: the demo thread paused on "I want a refund of $42
please." resumes with `true` into a completed turn issuing $42.00. -/
theorem c2_resume_true_issues_refund_witness :
    ∃ finalState hist2,
      invoke wEnv wPausedHist none (some true) = .ok (.Completed finalState, hist2) ∧
      finalState.approval = some true ∧
      finalState.action_result =
        some (tool_issue_refund wEnv.fl (parse_refund_amount wEnv.fl (lastUser wPausedState))) :=
  c2_resume_true_issues_refund wEnv wPausedHist
    ⟨1, wPausedState, "human_gate", some ("human_gate", wPayload)⟩ wPayload
    (by decide) (by decide) (by decide)

/-- C7 counterexample: a thread that already completed one denied-refund
turn and was restarted is paused at `human_gate`; resuming it with `false`
completes the turn with the denial message, yet its checkpoint history
holds two pause records and two completion records, not one of each. -/
theorem c7_counterexample :
    (latestCheckpoint wTwoTurnHist).map Checkpoint.pause =
      some (some ("human_gate", wPayload)) ∧
    invoke wEnv wTwoTurnHist none (some false) =
      .ok (.Completed wDenied, invokeHist wEnv wTwoTurnHist none (some false)) ∧
    wDenied.action_result = some "Refund request denied by reviewer." ∧
    (invokeHist wEnv wTwoTurnHist none (some false)).countP
      (fun cp => cp.pause.isSome) = 2 ∧
    (invokeHist wEnv wTwoTurnHist none (some false)).countP
      (fun cp => cp.next_node == ENDnode) = 2 := by
  decide

/-- C7 amended: for a thread freshly started (empty history) with a
refund message and paused at `human_gate`, resuming with `false` completes
the turn with `action_result` denoting the denial, and the resulting
history holds exactly one pause record and one completion record. -/
theorem c7_fresh_thread_deny_single_records {F : Type} (env : Env F) (msg : String)
    (h : strContains (pyLower msg) "refund" = true) :
    ∃ finalState hist2,
      invoke env (invokeHist env []
          (some ⟨[⟨"user", msg⟩], none, none, none, none⟩) none) none (some false) =
        .ok (.Completed finalState, hist2) ∧
      finalState.action_result = some "Refund request denied by reviewer." ∧
      hist2.countP (fun cp => cp.pause.isSome) = 1 ∧
      hist2.countP (fun cp => cp.next_node == ENDnode) = 1 := by
  have hc : classify_intent msg = ("refund", "high") := by
    simp [classify_intent, h]
  have hh : invokeHist env [] (some ⟨[⟨"user", msg⟩], none, none, none, none⟩) none =
      [⟨0, ⟨[⟨"user", msg⟩], some "refund", some "high", none, none⟩, "human_gate", none⟩,
       ⟨1, ⟨[⟨"user", msg⟩], some "refund", some "high", none, none⟩, "human_gate",
        some ("human_gate", "Approval required for refund. Resume with true/false.")⟩] := by
    simp [invokeHist, invoke, latestCheckpoint, graphFuel, stepLoop, runNode,
          node_classify, lastUser, hc, resolve_next, router, conditional_label_map,
          List.lookup, node_human_gate, ENDnode, nextSeq]
  rw [hh]
  refine ⟨node_handle_refund env.fl
      { (⟨[⟨"user", msg⟩], some "refund", some "high", none, none⟩ : GraphState) with
        approval := some false },
    [⟨0, ⟨[⟨"user", msg⟩], some "refund", some "high", none, none⟩, "human_gate", none⟩,
     ⟨1, ⟨[⟨"user", msg⟩], some "refund", some "high", none, none⟩, "human_gate",
      some ("human_gate", "Approval required for refund. Resume with true/false.")⟩,
     ⟨2, { (⟨[⟨"user", msg⟩], some "refund", some "high", none, none⟩ : GraphState) with
           approval := some false }, "refund", none⟩,
     ⟨3, node_handle_refund env.fl
        { (⟨[⟨"user", msg⟩], some "refund", some "high", none, none⟩ : GraphState) with
          approval := some false }, ENDnode, none⟩],
    ?_, ?_, ?_, ?_⟩
  · simp [invoke, latestCheckpoint, graphFuel, stepLoop, runNode, node_human_gate,
          resolve_next, ENDnode, nextSeq, List.append_assoc]
  · simp [node_handle_refund, lastUser]
  · simp [List.countP, List.countP.go]
  · simp [List.countP, List.countP.go, ENDnode]

/-- Witness for the amended C7 at the demo message. -/
theorem c7_fresh_thread_deny_single_records_witness :
    ∃ finalState hist2,
      invoke wEnv (invokeHist wEnv []
          (some ⟨[⟨"user", wMsg⟩], none, none, none, none⟩) none) none (some false) =
        .ok (.Completed finalState, hist2) ∧
      finalState.action_result = some "Refund request denied by reviewer." ∧
      hist2.countP (fun cp => cp.pause.isSome) = 1 ∧
      hist2.countP (fun cp => cp.next_node == ENDnode) = 1 :=
  c7_fresh_thread_deny_single_records wEnv wMsg (by decide)

/-- Supporting invariant: the only handler that can suspend is
`human_gate`, and it suspends only when `approval` is unset and no resume
value is pending. -/
theorem runNode_suspended_inv {F : Type} (env : Env F) (node : String) (resume : Option Bool)
    (s : GraphState) (p : String)
    (h : runNode env node resume s = some (.suspended p)) :
    node = "human_gate" ∧ s.approval = none ∧ resume = none := by
  unfold runNode at h
  split_ifs at h <;>
    first
    | (exfalso; simp_all; done)
    | (cases hap : s.approval <;> cases resume <;> simp_all [node_human_gate])

/-- Supporting invariant: every checkpoint the step loop appends with a
pause marker names `human_gate` and records a state whose `approval` is
unset — the hypothesis under which resuming a paused thread is analysed. -/
theorem stepLoop_pause_unset {F : Type} (env : Env F) :
    ∀ fuel node s resume seq hist res hist2,
      stepLoop env fuel node s resume seq hist = .ok (res, hist2) →
      ∀ cp, cp ∈ hist2 → cp ∉ hist →
        ∀ nm pl, cp.pause = some (nm, pl) →
          nm = "human_gate" ∧ cp.state.approval = none := by
  intro fuel
  induction fuel with
  | zero =>
    intro node s resume seq hist res hist2 h
    simp [stepLoop] at h
  | succ n ih =>
    intro node s resume seq hist res hist2 h cp hmem hnot nm pl hp
    rw [stepLoop] at h
    split at h
    · exact absurd h (by simp)
    · -- suspension: the paused checkpoint is appended
      next payload heq =>
      simp only [Except.ok.injEq, Prod.mk.injEq] at h
      obtain ⟨-, hh2⟩ := h
      subst hh2
      rcases List.mem_append.1 hmem with hin | hin
      · exact absurd hin hnot
      · simp only [List.mem_singleton] at hin
        subst hin
        simp only [Option.some.injEq, Prod.mk.injEq] at hp
        obtain ⟨hnm, -⟩ := hp
        obtain ⟨hnode, hap, -⟩ := runNode_suspended_inv env node resume s payload heq
        exact ⟨hnm ▸ hnode, hap⟩
    · -- handler returned a state
      next s2 heq =>
      split at h
      · exact absurd h (by simp)
      next nxt heq2 =>
      split at h
      · -- terminal step: the appended checkpoint carries no pause marker
        simp only [Except.ok.injEq, Prod.mk.injEq] at h
        obtain ⟨-, hh2⟩ := h
        subst hh2
        rcases List.mem_append.1 hmem with hin | hin
        · exact absurd hin hnot
        · simp only [List.mem_singleton] at hin
          subst hin
          simp at hp
      · -- recursive step
        have hnot2 : cp ∉ hist ++ [⟨seq, s2, nxt, none⟩] := by
          intro hx
          rcases List.mem_append.1 hx with hx | hx
          · exact hnot hx
          · simp only [List.mem_singleton] at hx
            subst hx
            simp at hp
        exact ih nxt s2 none (seq + 1) (hist ++ [⟨seq, s2, nxt, none⟩]) res hist2 h
          cp hmem hnot2 nm pl hp
